import Mathlib

/-!
Verification of the WOSA (topic ingestion / report generation / id allocation)
services of this repository, embedded shallowly in Lean.

Modelling conventions, matching `app/core/services/wosa_service.py` and the
schemas in `app/schemas/wosa_schemas.py` / models in
`app/infrastructure/database/wosa_models.py`:

* The relational store is a record of lists, one list per table, in insertion
  order (SQLAlchemy `query(...).first()` / `.all()` return rows in that order
  for these unordered queries).  Autoincrement primary keys are modelled by
  explicit `next_*_id` counters.
* `datetime` values are integers (seconds); `timedelta(days = n)` is
  `n * 86400`.  `datetime.utcnow()` / `datetime.now()` become an explicit
  `now` argument.
* Python `float` statistics fields are modelled as `Int`: the service only
  ever compares them for equality, never does arithmetic on them.
* Python `str.lower()` is modelled as a character-wise `Char.toLower` map and
  the Python substring test `a in b` as list-infix of the character lists.
* The service module imports a name `TopicObject` that is defined nowhere in
  the repository, and the per-topic loop's first statement
  `topic_object = topic_data.object` reads an attribute `TopicData` does not
  have, so at run time every iteration of the loop raises `AttributeError`
  into the per-topic except branch: `topic_step` embeds exactly that.  The
  standalone `_create_topic` / `_update_topic` read exactly the fields of
  `TopicData` from their `topic_object` argument, so their embeddings take
  the `TopicData` record for it.
* Exceptions become `Except`; the heterogeneous `changes` dictionaries of
  `TopicHistory` become association lists of field name to a `Value` sum.
* `base64` decoding and pydantic JSON parsing in `upload_file` are abstracted:
  the embedded `upload_file` receives the already-decoded UTF-8 text (its
  validation-failure branch is out of scope of the properties proved here).
-/

/-- Heterogeneous column value, for the `changes` maps of `TopicHistory`
and the type-specific fields of report rows. -/
inductive Value where
  | intVal (n : Int)
  | strVal (v : String)
  | optStrVal (v : Option String)
  | timeVal (v : Option Int)
deriving DecidableEq, Repr

/-- Statistics block of a topic record (`TopicStats` pydantic schema); the
fields are listed in the schema's declaration order, which is also the
iteration order of `topic_object.stats.dict()` in `_update_topic`. -/
structure TopicStats where
  average_message_size : Int
  cleanup_policy : Option String
  estimated_size : Int
  last_message_date : Option Int
  last_stat_retrieval_date : Option Int
  maximum_message_size : Int
  minimum_message_size : Int
  messages_last_30d : Int
  partition_number : Int
  replication_factor : Int
  retention : Option String
  total_messages : Int
deriving DecidableEq, Repr

/-- Topic record submitted in a WOSA document (`TopicData` pydantic schema;
it is also what `_create_topic` / `_update_topic` read their `topic_object`
argument as, the imported `TopicObject` being undefined). -/
structure TopicData where
  bridged_topic : Option String
  consumers : List String
  missing_consumers : List String
  missing_producers : List String
  name : String
  producers : List String
  stats : TopicStats
deriving DecidableEq, Repr

/-- Row of the `topics` table.  The statistics columns are flat in the
SQLAlchemy model; they are grouped in `stats` here, matching `TopicStats`
field for field (`Topic(..., **topic_object.stats.dict())`). -/
structure Topic where
  id : Int
  name : String
  file_id : Int
  interface_id : Option Int
  environment : Option String
  bridged_topic : Option String
  stats : TopicStats
  created_at : Int
  updated_at : Int
  first_seen : Int
  last_seen : Int
  is_deprecated : Bool
deriving DecidableEq, Repr

/-- Row of the producer / consumer / missing-producer / missing-consumer
child tables (each stores a topic id and a name). -/
structure ChildRow where
  topic_id : Int
  name : String
deriving DecidableEq, Repr

/-- Row of the `topic_history` table. -/
structure TopicHistory where
  topic_id : Int
  file_id : Int
  action : String
  changes : List (String × Value)
deriving DecidableEq, Repr

/-- Row of the `files` table. -/
structure File where
  id : Int
  name : String
  original_name : String
  user_id : Option String
  file_size : Int
  status : String
  processing_date : Option Int
deriving DecidableEq, Repr

/-- Row of the `reports` table. -/
structure Report where
  id : Int
  report_type : Int
  report_name : String
  generated_by : Option String
  parameters : Option (List (String × String))
  results_count : Nat
deriving DecidableEq, Repr

/-- Flat result record produced by the ten report queries: topic id, topic
name, plus one type-specific key/value pair. -/
structure ReportRow where
  topic_id : Int
  topic_name : String
  extra : String × Value
deriving DecidableEq, Repr

/-- Row of the `report_items` table. -/
structure ReportItem where
  report_id : Int
  topic_id : Option Int
  item_data : ReportRow
deriving DecidableEq, Repr

/-- Result of `process_topics` (`ProcessingResult` pydantic schema). -/
structure ProcessingResult where
  file_id : Int
  status : String
  topics_processed : Nat
  topics_created : Nat
  topics_updated : Nat
  errors : List String
  warnings : List String
deriving DecidableEq, Repr

/-- Response of `IDGenerationService.get_next_available_id`. -/
structure IDGenerationResponse where
  entity : String
  requested_id : Int
  available_id : Int
  is_available : Bool
deriving DecidableEq, Repr

/-- Error kinds raised by the services (`app/exceptions.py`). -/
inductive WosaError where
  | validationError (msg : String)
  | notFoundError (msg : String)
  | conflictError (msg : String)
deriving DecidableEq, Repr

/-- The relational store: one list of rows per table, plus autoincrement
counters. -/
structure WosaDB where
  files : List File
  application_component_ids : List Int
  interface_type_ids : List Int
  interface_ids : List Int
  topics : List Topic
  topic_producers : List ChildRow
  topic_consumers : List ChildRow
  missing_producers : List ChildRow
  missing_consumers : List ChildRow
  topic_history : List TopicHistory
  reports : List Report
  report_items : List ReportItem
  next_file_id : Int
  next_topic_id : Int
  next_report_id : Int
deriving DecidableEq, Repr

/-- The empty store. -/
def emptyDB : WosaDB :=
  { files := [], application_component_ids := [], interface_type_ids := []
    interface_ids := [], topics := [], topic_producers := []
    topic_consumers := [], missing_producers := [], missing_consumers := []
    topic_history := [], reports := [], report_items := []
    next_file_id := 1, next_topic_id := 1, next_report_id := 1 }

/-- Python `str.lower()` (character-wise lowering). -/
def strLower (s : String) : String := String.mk (s.data.map Char.toLower)

/-- Python substring test `sub in s`. -/
def strContains (s : String) (sub : String) : Bool :=
  decide (sub.data <:+: s.data)

/-- Embedding of `WOSATopicService._detect_environment`. -/
def detect_environment (topic_name : String) : Option String :=
  let topic_name_lower := strLower topic_name
  if ["dev", "development"].any (fun env => strContains topic_name_lower env) then
    some "dev"
  else if ["prod", "production"].any (fun env => strContains topic_name_lower env) then
    some "prod"
  else if ["e2e", "test"].any (fun env => strContains topic_name_lower env) then
    some "e2e"
  else
    none

example : detect_environment "MyDevTopic" = some "dev" := by decide
example : detect_environment "orders-PRODUCTION" = some "prod" := by decide
example : detect_environment "checkout-test" = some "e2e" := by decide
example : detect_environment "orders" = none := by decide

/-- One step of the change-tracking pattern of `_update_topic`: when the
stored value differs from the submitted one, stage `changes[key] = value`. -/
def changedField {α : Type} [DecidableEq α] (key : String) (old new : α)
    (enc : α → Value) : List (String × Value) :=
  if old ≠ new then [(key, enc new)] else []

/-- Change staging of `_update_topic` over the statistics block: the loop
`for field, value in stats_dict.items()` unrolled in the dictionary's
(= schema declaration) order. -/
def computeStatsChanges (old new : TopicStats) : List (String × Value) :=
  changedField "average_message_size" old.average_message_size new.average_message_size Value.intVal
  ++ changedField "cleanup_policy" old.cleanup_policy new.cleanup_policy Value.optStrVal
  ++ changedField "estimated_size" old.estimated_size new.estimated_size Value.intVal
  ++ changedField "last_message_date" old.last_message_date new.last_message_date Value.timeVal
  ++ changedField "last_stat_retrieval_date" old.last_stat_retrieval_date new.last_stat_retrieval_date Value.timeVal
  ++ changedField "maximum_message_size" old.maximum_message_size new.maximum_message_size Value.intVal
  ++ changedField "minimum_message_size" old.minimum_message_size new.minimum_message_size Value.intVal
  ++ changedField "messages_last_30d" old.messages_last_30d new.messages_last_30d Value.intVal
  ++ changedField "partition_number" old.partition_number new.partition_number Value.intVal
  ++ changedField "replication_factor" old.replication_factor new.replication_factor Value.intVal
  ++ changedField "retention" old.retention new.retention Value.optStrVal
  ++ changedField "total_messages" old.total_messages new.total_messages Value.intVal

/-- Full `changes` map built by `_update_topic`: the `bridged_topic`
comparison followed by the statistics loop. -/
def computeChanges (topic : Topic) (topic_object : TopicData) : List (String × Value) :=
  changedField "bridged_topic" topic.bridged_topic topic_object.bridged_topic Value.optStrVal
  ++ computeStatsChanges topic.stats topic_object.stats

/-- Embedding of `WOSATopicService._create_topic`: inserts the topic row, one
child row per producer / consumer / missing-producer / missing-consumer name,
and one `TopicHistory` row with action `created`. -/
def create_topic (db : WosaDB) (now : Int) (topic_object : TopicData)
    (file_id : Int) : WosaDB × Topic :=
  let topic : Topic :=
    { id := db.next_topic_id, name := topic_object.name, file_id := file_id
      interface_id := none
      environment := detect_environment topic_object.name
      bridged_topic := topic_object.bridged_topic
      stats := topic_object.stats
      created_at := now, updated_at := now, first_seen := now, last_seen := now
      is_deprecated := false }
  let history : TopicHistory :=
    { topic_id := topic.id, file_id := file_id, action := "created"
      changes := [("name", Value.strVal topic_object.name)] }
  ({ db with
      topics := db.topics ++ [topic]
      next_topic_id := db.next_topic_id + 1
      topic_producers := db.topic_producers
        ++ topic_object.producers.map (fun n => { topic_id := topic.id, name := n })
      topic_consumers := db.topic_consumers
        ++ topic_object.consumers.map (fun n => { topic_id := topic.id, name := n })
      missing_producers := db.missing_producers
        ++ topic_object.missing_producers.map (fun n => { topic_id := topic.id, name := n })
      missing_consumers := db.missing_consumers
        ++ topic_object.missing_consumers.map (fun n => { topic_id := topic.id, name := n })
      topic_history := db.topic_history ++ [history] },
   topic)

/-- Embedding of `WOSATopicService._update_topic`: overwrites the differing
`bridged_topic` / statistics fields (net effect: both become the submitted
values), always refreshes `last_seen`, and appends a `TopicHistory` row with
action `updated` exactly when the staged `changes` map is non-empty.
Producer / consumer child rows are not touched (stub in the source). -/
def update_topic (db : WosaDB) (now : Int) (topic : Topic)
    (topic_object : TopicData) (file_id : Int) : WosaDB × Topic :=
  let changes := computeChanges topic topic_object
  let topic' : Topic :=
    { topic with
        bridged_topic := topic_object.bridged_topic
        stats := topic_object.stats
        last_seen := now }
  let db' : WosaDB :=
    { db with topics := db.topics.map (fun x => if x.id == topic.id then topic' else x) }
  if changes.isEmpty then (db', topic')
  else
    ({ db' with
        topic_history := db'.topic_history
          ++ [{ topic_id := topic.id, file_id := file_id, action := "updated"
                changes := changes }] },
     topic')

/-- Outcome of the per-topic try-block body of `process_topics`. -/
inductive StepOutcome where
  | createdTopic
  | updatedTopic
deriving DecidableEq, Repr

/-- The message of the `AttributeError` raised by `topic_data.object`, as
`str(e)` renders it. -/
def attributeErrorMsg : String :=
  "'TopicData' object has no attribute 'object'"

/-- Body of the per-topic try-block of `process_topics`, as the source
executes it: its first statement, `topic_object = topic_data.object`, raises
`AttributeError` — `TopicData` has no `object` attribute and the imported
name `TopicObject` is defined nowhere in the repository — so every iteration
throws before reaching the name lookup, and the create / update branches
(`_create_topic` / `_update_topic`, embedded standalone above) are
unreachable from the loop. -/
def topic_step (now : Int) (file_id : Int) (db : WosaDB) (topic_data : TopicData) :
    Except String (WosaDB × StepOutcome) :=
  Except.error attributeErrorMsg

/-- Loop of `process_topics`, generic in the per-topic step so that the
catch-all `except` branch (any exception becomes one entry of `errors`) is
captured for an arbitrary failing step. -/
def process_topics_go
    (step : WosaDB → TopicData → Except String (WosaDB × StepOutcome)) :
    WosaDB → ProcessingResult → List TopicData → WosaDB × ProcessingResult
  | db, result, [] => (db, { result with status := "completed" })
  | db, result, topic_data :: rest =>
    match step db topic_data with
    | Except.ok (db', StepOutcome.createdTopic) =>
        process_topics_go step db'
          { result with topics_created := result.topics_created + 1 } rest
    | Except.ok (db', StepOutcome.updatedTopic) =>
        process_topics_go step db'
          { result with topics_updated := result.topics_updated + 1 } rest
    | Except.error e =>
        process_topics_go step db
          { result with errors := result.errors
              ++ ["Error processing topic " ++ topic_data.name ++ ": " ++ e] } rest

/-- Initial `ProcessingResult` built at the top of `process_topics`. -/
def init_result (file_id : Int) (topics_data : List TopicData) : ProcessingResult :=
  { file_id := file_id, status := "processing"
    topics_processed := topics_data.length
    topics_created := 0, topics_updated := 0, errors := [], warnings := [] }

/-- `process_topics` with an arbitrary per-topic step. -/
def process_topics_with
    (step : WosaDB → TopicData → Except String (WosaDB × StepOutcome))
    (db : WosaDB) (file_id : Int) (topics_data : List TopicData) :
    WosaDB × ProcessingResult :=
  process_topics_go step db (init_result file_id topics_data) topics_data

/-- Embedding of `WOSATopicService.process_topics`. -/
def process_topics (db : WosaDB) (now : Int) (file_id : Int)
    (topics_data : List TopicData) : WosaDB × ProcessingResult :=
  process_topics_with (topic_step now file_id) db file_id topics_data

/-- Upload request with the base64 content already decoded to UTF-8 text
(`FileUploadRequest` with `content` decoded; decoding/parsing failures are
outside this embedding). -/
structure FileUploadRequest where
  filename : String
  user_id : Option String
  content_text : String
deriving DecidableEq, Repr

/-- Embedding of `WOSAFileService.upload_file` after successful validation:
derives the stored name from the lowercased filename and the formatted
current timestamp, rejects a duplicate name with `ConflictError`, and inserts
the `File` row with status `pending` and `file_size = len(json_content)`
(Python `len` of a `str`: the number of Unicode code points of the decoded
text, not its UTF-8 byte count). -/
def upload_file (db : WosaDB) (timestamp : String) (request : FileUploadRequest) :
    Except WosaError (WosaDB × File) :=
  let filename := strLower request.filename ++ " " ++ timestamp
  if db.files.any (fun f => f.name == filename) then
    Except.error (WosaError.conflictError
      ("File with name " ++ filename ++ " already exists"))
  else
    let file_record : File :=
      { id := db.next_file_id, name := filename
        original_name := request.filename
        user_id := request.user_id
        file_size := (request.content_text.length : Int)
        status := "pending", processing_date := none }
    Except.ok ({ db with files := db.files ++ [file_record]
                         next_file_id := db.next_file_id + 1 },
               file_record)

/-- Result row shared by reports 1 / 2 / 7: topic id and name plus a fixed
`reason` string. -/
def reasonRow (t : Topic) (reason : String) : ReportRow :=
  { topic_id := t.id, topic_name := t.name, extra := ("reason", Value.strVal reason) }

/-- Result row of reports 3 / 4 / 5. -/
def noMsgRow (t : Topic) : ReportRow :=
  { topic_id := t.id, topic_name := t.name
    extra := ("last_message", Value.timeVal t.stats.last_message_date) }

/-- Embedding of `_get_topics_without_producers` (report 1): the outer join
plus `TopicProducer.id IS NULL` filter keeps the topics with no producer
row. -/
def get_topics_without_producers (db : WosaDB) : List ReportRow :=
  ((db.topics.filter (fun t =>
      !(db.topic_producers.any (fun p => p.topic_id == t.id)))).map
    (fun t => reasonRow t "No producers"))

/-- Embedding of `_get_topics_without_consumers` (report 2). -/
def get_topics_without_consumers (db : WosaDB) : List ReportRow :=
  ((db.topics.filter (fun t =>
      !(db.topic_consumers.any (fun c => c.topic_id == t.id)))).map
    (fun t => reasonRow t "No consumers"))

/-- SQL comparison `col < cutoff` on the nullable `last_message_date` column,
as it appears under the `or_` with `IS NULL`: a NULL value satisfies only the
`IS NULL` arm. -/
def lastMessageOlder (last_message_date : Option Int) (cutoff : Int) : Bool :=
  match last_message_date with
  | none => true
  | some d => decide (d < cutoff)

/-- Embedding of `_get_topics_30_days_no_message` (report 3). -/
def get_topics_30_days_no_message (db : WosaDB) (now : Int) : List ReportRow :=
  let thirty_days_ago := now - 30 * 86400
  ((db.topics.filter (fun t =>
      lastMessageOlder t.stats.last_message_date thirty_days_ago)).map noMsgRow)

/-- Embedding of `_get_topics_60_days_no_message` (report 4). -/
def get_topics_60_days_no_message (db : WosaDB) (now : Int) : List ReportRow :=
  let sixty_days_ago := now - 60 * 86400
  ((db.topics.filter (fun t =>
      lastMessageOlder t.stats.last_message_date sixty_days_ago)).map noMsgRow)

/-- Embedding of `_get_topics_90_days_no_message` (report 5). -/
def get_topics_90_days_no_message (db : WosaDB) (now : Int) : List ReportRow :=
  let ninety_days_ago := now - 90 * 86400
  ((db.topics.filter (fun t =>
      lastMessageOlder t.stats.last_message_date ninety_days_ago)).map noMsgRow)

/-- Embedding of `_get_topics_multiple_producers` (report 6): stub in the
source, always empty. -/
def get_topics_multiple_producers (db : WosaDB) : List ReportRow := []

/-- Embedding of `_get_topics_no_ac_registered` (report 7). -/
def get_topics_no_ac_registered (db : WosaDB) : List ReportRow :=
  ((db.topics.filter (fun t => t.interface_id.isNone)).map
    (fun t => reasonRow t "No AC registered"))

/-- Embedding of `_get_topics_not_documented` (report 8): stub in the source,
always empty. -/
def get_topics_not_documented (db : WosaDB) : List ReportRow := []

/-- Embedding of `_get_topics_modified_30_60_90_days` (report 9):
`updated_at > now - 30 days` (the nullable-column subtlety does not arise,
`updated_at` is non-null). -/
def get_topics_modified_30_60_90_days (db : WosaDB) (now : Int) : List ReportRow :=
  let thirty_days_ago := now - 30 * 86400
  ((db.topics.filter (fun t => decide (thirty_days_ago < t.updated_at))).map
    (fun t => { topic_id := t.id, topic_name := t.name
                extra := ("updated_at", Value.intVal t.updated_at) }))

/-- SQLAlchemy `col.notin_(vals)` on a nullable string column, i.e. SQL
`col NOT IN (vals)` under three-valued logic: a NULL column value makes the
predicate UNKNOWN, so the row is filtered out. -/
def sqlNotIn (v : Option String) (vals : List String) : Bool :=
  match v with
  | none => false
  | some s => !(vals.contains s)

/-- Result row of report 10. -/
def wrongEnvRow (t : Topic) : ReportRow :=
  { topic_id := t.id, topic_name := t.name
    extra := ("environment", Value.optStrVal t.environment) }

/-- Embedding of `_get_topics_wrong_environment` (report 10):
`Topic.environment.notin_(['dev', 'prod', 'e2e'])`. -/
def get_topics_wrong_environment (db : WosaDB) : List ReportRow :=
  ((db.topics.filter (fun t => sqlNotIn t.environment ["dev", "prod", "e2e"])).map
    wrongEnvRow)

/-- Embedding of `_get_report_data`: dispatch on the report type (the
trailing `return []` of the source is unreachable for types 1..10, which is
all `generate_report` passes in). -/
def get_report_data (db : WosaDB) (now : Int) (report_type : Int)
    (parameters : Option (List (String × String))) : List ReportRow :=
  if report_type == 1 then get_topics_without_producers db
  else if report_type == 2 then get_topics_without_consumers db
  else if report_type == 3 then get_topics_30_days_no_message db now
  else if report_type == 4 then get_topics_60_days_no_message db now
  else if report_type == 5 then get_topics_90_days_no_message db now
  else if report_type == 6 then get_topics_multiple_producers db
  else if report_type == 7 then get_topics_no_ac_registered db
  else if report_type == 8 then get_topics_not_documented db
  else if report_type == 9 then get_topics_modified_30_60_90_days db now
  else if report_type == 10 then get_topics_wrong_environment db
  else []

/-- Embedding of `WOSAReportService.generate_report`: validates the type
range, runs the type's query, inserts the `Report` row and one `ReportItem`
per result row. -/
def generate_report (db : WosaDB) (now : Int) (report_type : Int)
    (parameters : Option (List (String × String))) :
    Except WosaError (WosaDB × Report) :=
  if report_type < 1 || report_type > 10 then
    Except.error (WosaError.validationError "Report type must be between 1 and 10")
  else
    let report_data := get_report_data db now report_type parameters
    let report : Report :=
      { id := db.next_report_id
        report_type := report_type
        report_name := "WOSA Report " ++ toString report_type
        generated_by := parameters.bind (fun p => p.lookup "generated_by")
        parameters := parameters
        results_count := report_data.length }
    let db' : WosaDB :=
      { db with reports := db.reports ++ [report]
                next_report_id := db.next_report_id + 1
                report_items := db.report_items
                  ++ report_data.map (fun item_data =>
                      { report_id := report.id
                        topic_id := some item_data.topic_id
                        item_data := item_data }) }
    Except.ok (db', report)

/-- Embedding of the `entity_map` dictionary of `IDGenerationService`: maps
an entity kind to the id column of its table, in the dictionary's key
order. -/
def entity_map (db : WosaDB) : List (String × List Int) :=
  [("file", db.files.map (fun f => f.id)),
   ("application_component", db.application_component_ids),
   ("interface_type", db.interface_type_ids),
   ("interface", db.interface_ids),
   ("topic", db.topics.map (fun t => t.id)),
   ("report", db.reports.map (fun r => r.id))]

/-- Embedding of `IDGenerationService.get_next_available_id`: unknown entity
kinds are rejected; a free requested id is returned as available; otherwise
the next id is `max(id) or 0` plus one (`.max?.getD 0` agrees with Python's
`scalar() or 0`: both yield `0` for an empty table, and a max of `0` also
yields `0` either way). -/
def get_next_available_id (db : WosaDB) (entity : String) (requested_id : Int) :
    Except WosaError IDGenerationResponse :=
  match (entity_map db).lookup entity with
  | none => Except.error (WosaError.validationError ("Unknown entity: " ++ entity))
  | some ids =>
    if !(ids.contains requested_id) then
      Except.ok { entity := entity, requested_id := requested_id
                  available_id := requested_id, is_available := true }
    else
      Except.ok { entity := entity, requested_id := requested_id
                  available_id := ids.max?.getD 0 + 1, is_available := false }

/-! Helper lemmas. -/

/-- A staged change entry is empty exactly when the stored and submitted
values agree. -/
theorem changedField_eq_nil {α : Type} [DecidableEq α] (key : String)
    (old new : α) (enc : α → Value) :
    changedField key old new enc = [] ↔ old = new := by
  by_cases h : old = new <;> simp [changedField, h]

/-- The statistics change map is empty exactly when the two blocks agree. -/
theorem computeStatsChanges_eq_nil (old new : TopicStats) :
    computeStatsChanges old new = [] ↔ old = new := by
  cases old
  cases new
  simp [computeStatsChanges, List.append_eq_nil, changedField_eq_nil,
    TopicStats.mk.injEq, and_assoc]

/-- The full change map of `_update_topic` is empty exactly when neither
`bridged_topic` nor any statistics field differs. -/
theorem computeChanges_eq_nil (topic : Topic) (topic_object : TopicData) :
    computeChanges topic topic_object = []
      ↔ (topic.bridged_topic = topic_object.bridged_topic
          ∧ topic.stats = topic_object.stats) := by
  simp [computeChanges, List.append_eq_nil, changedField_eq_nil,
    computeStatsChanges_eq_nil]

/-- Statistics block with the pydantic defaults of `TopicStats`. -/
def statsDefault : TopicStats :=
  { average_message_size := 0, cleanup_policy := none, estimated_size := 0
    last_message_date := none, last_stat_retrieval_date := none
    maximum_message_size := 0, minimum_message_size := 0, messages_last_30d := 0
    partition_number := 1, replication_factor := 1, retention := none
    total_messages := 0 }

/-- Sample stored topic used by the concrete witnesses and counterexamples. -/
def mkTopic (id : Int) (name : String) (env : Option String)
    (lmd : Option Int) : Topic :=
  { id := id, name := name, file_id := 1, interface_id := none
    environment := env, bridged_topic := none
    stats := { statsDefault with last_message_date := lmd }
    created_at := 0, updated_at := 0, first_seen := 0, last_seen := 0
    is_deprecated := false }

/-! Claim theorems. -/

/-- C9: environment detection is case-insensitive substring matching with
first match winning in the order dev before prod before e2e: a name
containing `dev` or `development` yields `dev`; otherwise one containing
`prod` or `production` yields `prod`; otherwise one containing `e2e` or
`test` yields `e2e`; otherwise the result is null. -/
theorem wosa_c9_detect_environment (s : String) :
    (("dev".data <:+: (strLower s).data ∨ "development".data <:+: (strLower s).data) →
        detect_environment s = some "dev")
  ∧ (¬ ("dev".data <:+: (strLower s).data ∨ "development".data <:+: (strLower s).data) →
      ("prod".data <:+: (strLower s).data ∨ "production".data <:+: (strLower s).data) →
        detect_environment s = some "prod")
  ∧ (¬ ("dev".data <:+: (strLower s).data ∨ "development".data <:+: (strLower s).data) →
      ¬ ("prod".data <:+: (strLower s).data ∨ "production".data <:+: (strLower s).data) →
      ("e2e".data <:+: (strLower s).data ∨ "test".data <:+: (strLower s).data) →
        detect_environment s = some "e2e")
  ∧ (¬ ("dev".data <:+: (strLower s).data ∨ "development".data <:+: (strLower s).data) →
      ¬ ("prod".data <:+: (strLower s).data ∨ "production".data <:+: (strLower s).data) →
      ¬ ("e2e".data <:+: (strLower s).data ∨ "test".data <:+: (strLower s).data) →
        detect_environment s = none) := by
  have hd : (["dev", "development"].any (fun env => strContains (strLower s) env) = true)
      ↔ ("dev".data <:+: (strLower s).data ∨ "development".data <:+: (strLower s).data) := by
    simp [strContains]
  have hp : (["prod", "production"].any (fun env => strContains (strLower s) env) = true)
      ↔ ("prod".data <:+: (strLower s).data ∨ "production".data <:+: (strLower s).data) := by
    simp [strContains]
  have he : (["e2e", "test"].any (fun env => strContains (strLower s) env) = true)
      ↔ ("e2e".data <:+: (strLower s).data ∨ "test".data <:+: (strLower s).data) := by
    simp [strContains]
  refine ⟨fun h => ?_, fun h1 h2 => ?_, fun h1 h2 h3 => ?_, fun h1 h2 h3 => ?_⟩
  · simp [detect_environment, hd.2 h]
  · have hd' : (["dev", "development"].any (fun env => strContains (strLower s) env)) = false :=
      by rw [← Bool.not_eq_true]; exact fun hc => h1 (hd.1 hc)
    simp [detect_environment, hd', hp.2 h2]
  · have hd' : (["dev", "development"].any (fun env => strContains (strLower s) env)) = false :=
      by rw [← Bool.not_eq_true]; exact fun hc => h1 (hd.1 hc)
    have hp' : (["prod", "production"].any (fun env => strContains (strLower s) env)) = false :=
      by rw [← Bool.not_eq_true]; exact fun hc => h2 (hp.1 hc)
    simp [detect_environment, hd', hp', he.2 h3]
  · have hd' : (["dev", "development"].any (fun env => strContains (strLower s) env)) = false :=
      by rw [← Bool.not_eq_true]; exact fun hc => h1 (hd.1 hc)
    have hp' : (["prod", "production"].any (fun env => strContains (strLower s) env)) = false :=
      by rw [← Bool.not_eq_true]; exact fun hc => h2 (hp.1 hc)
    have he' : (["e2e", "test"].any (fun env => strContains (strLower s) env)) = false :=
      by rw [← Bool.not_eq_true]; exact fun hc => h3 (he.1 hc)
    simp [detect_environment, hd', hp', he']

/-- C9 witness: a concrete application of the characterisation, on a name
that matches the dev clause case-insensitively. -/
theorem wosa_c9_witness : detect_environment "MyDevTopic" = some "dev" :=
  (wosa_c9_detect_environment "MyDevTopic").1 (Or.inl (by decide))

/-- C5: during ingestion, a create always appends exactly one history row
with action `created` and changes `{name: topic name}`; an update appends
exactly one history row with action `updated` and the staged change map when
that map is non-empty (equivalently, when `bridged_topic` or some statistics
field differs), and appends nothing when it is empty. -/
theorem wosa_c5_topic_history (db : WosaDB) (now : Int) (topic_object : TopicData)
    (file_id : Int) (topic : Topic) :
    ((create_topic db now topic_object file_id).1.topic_history
       = db.topic_history
         ++ [{ topic_id := db.next_topic_id, file_id := file_id, action := "created"
               changes := [("name", Value.strVal topic_object.name)] }])
  ∧ (((update_topic db now topic topic_object file_id).1.topic_history = db.topic_history)
       ↔ (topic.bridged_topic = topic_object.bridged_topic
            ∧ topic.stats = topic_object.stats))
  ∧ (((update_topic db now topic topic_object file_id).1.topic_history
        = db.topic_history
          ++ [{ topic_id := topic.id, file_id := file_id, action := "updated"
                changes := computeChanges topic topic_object }])
       ↔ ¬ (topic.bridged_topic = topic_object.bridged_topic
              ∧ topic.stats = topic_object.stats)) := by
  refine ⟨rfl, ?_, ?_⟩ <;>
    by_cases h : computeChanges topic topic_object = []
  · simp [update_topic, h, (computeChanges_eq_nil topic topic_object).1 h]
  · have hne := fun hc => h ((computeChanges_eq_nil topic topic_object).2 hc)
    simp only [update_topic, List.isEmpty_iff]
    rw [if_neg h]
    simp [hne]
    exact fun hb hs => hne ⟨hb, hs⟩
  · simp [update_topic, h, (computeChanges_eq_nil topic topic_object).1 h]
  · have hne := fun hc => h ((computeChanges_eq_nil topic topic_object).2 hc)
    simp only [update_topic, List.isEmpty_iff]
    rw [if_neg h]
    simp [hne]
    exact fun hb hs => hne ⟨hb, hs⟩

/-- Stored topic with a null environment tag. -/
def topicNullEnv : Topic := mkTopic 1 "orders" none none

/-- Store holding exactly one topic, whose environment is null. -/
def dbNullEnv : WosaDB := { emptyDB with topics := [topicNullEnv] }

/-- C2 counterexample: the claim says a stored topic with a null environment
is in the report type 10 results, but the SQL `NOT IN` filter produced by
`Topic.environment.notin_([...])` discards NULL values, so the result set of
report 10 over a store holding exactly that topic is empty. -/
theorem wosa_c2_counterexample :
    topicNullEnv ∈ dbNullEnv.topics ∧ topicNullEnv.environment = none
      ∧ get_topics_wrong_environment dbNullEnv = [] := by decide

/-- C2 (amended): report type 10 returns exactly the topics whose environment
is non-null and not one of dev / prod / e2e; a topic with environment
`staging` is in the result, one with `prod` is not, and one with a null
environment is (contrary to the original claim) not in the result. -/
theorem wosa_c2_wrong_environment (db : WosaDB) (t : Topic) (ht : t ∈ db.topics) :
    (wrongEnvRow t ∈ get_topics_wrong_environment db)
      ↔ ∃ e, t.environment = some e ∧ ¬ e ∈ (["dev", "prod", "e2e"] : List String) := by
  constructor
  · intro h
    rcases List.mem_map.1 h with ⟨u, hu, hrow⟩
    rcases List.mem_filter.1 hu with ⟨humem, hpred⟩
    have henv : u.environment = t.environment := by
      have hx := congrArg (fun r => r.extra.2) hrow
      simpa [wrongEnvRow] using hx
    rw [henv] at hpred
    cases hte : t.environment with
    | none => rw [hte] at hpred; simp [sqlNotIn] at hpred
    | some e =>
      refine ⟨e, rfl, ?_⟩
      rw [hte] at hpred
      simpa [sqlNotIn] using hpred
  · rintro ⟨e, he, hne⟩
    exact List.mem_map.2 ⟨t, List.mem_filter.2 ⟨ht, by simp [sqlNotIn, he]; simpa using hne⟩, rfl⟩

/-- Store holding a staging topic and a prod topic. -/
def dbEnvMix : WosaDB :=
  { emptyDB with topics := [mkTopic 1 "orders-staging" (some "staging") none,
                            mkTopic 2 "orders-prod" (some "prod") none] }

/-- C2 witness: the characterisation applied to the staging topic of a
concrete store. -/
theorem wosa_c2_witness :
    wrongEnvRow (mkTopic 1 "orders-staging" (some "staging") none)
      ∈ get_topics_wrong_environment dbEnvMix :=
  (wosa_c2_wrong_environment dbEnvMix (mkTopic 1 "orders-staging" (some "staging") none)
      (by decide)).2 ⟨"staging", rfl, by decide⟩

/-- C6: `generate_report` fails with a ValidationError exactly when the
report type is outside 1..10, and report types 6 and 8 succeed with an empty
result set: the persisted report has `results_count = 0` and no `ReportItem`
row is inserted. -/
theorem wosa_c6_generate_report (db : WosaDB) (now : Int) (report_type : Int)
    (parameters : Option (List (String × String))) :
    ((∃ msg, generate_report db now report_type parameters
        = Except.error (WosaError.validationError msg))
      ↔ (report_type < 1 ∨ 10 < report_type))
  ∧ ((report_type = 6 ∨ report_type = 8) →
      ∃ db' rep, generate_report db now report_type parameters = Except.ok (db', rep)
        ∧ rep.results_count = 0 ∧ db'.report_items = db.report_items) := by
  constructor
  · by_cases h : report_type < 1 || report_type > 10
    · constructor
      · intro _
        simpa [decide_eq_true_eq] using h
      · intro _
        exact ⟨"Report type must be between 1 and 10", by simp [generate_report, h]⟩
    · constructor
      · rintro ⟨msg, hmsg⟩
        simp [generate_report, h] at hmsg
      · intro hrange
        exact absurd (by simpa [decide_eq_true_eq] using hrange) h
  · rintro (h6 | h8)
    · subst h6
      refine ⟨_, _, by rw [generate_report]; rfl, ?_, ?_⟩
      · simp [get_report_data, get_topics_multiple_producers]
      · simp [get_report_data, get_topics_multiple_producers]
    · subst h8
      refine ⟨_, _, by rw [generate_report]; rfl, ?_, ?_⟩
      · simp [get_report_data, get_topics_not_documented]
      · simp [get_report_data, get_topics_not_documented]

/-- C6 witness: report type 0 is rejected and report type 6 on a concrete
store succeeds with an empty result set. -/
theorem wosa_c6_witness :
    (∃ msg, generate_report dbEnvMix 0 0 none
        = Except.error (WosaError.validationError msg))
  ∧ (∃ db' rep, generate_report dbEnvMix 0 6 none = Except.ok (db', rep)
      ∧ rep.results_count = 0 ∧ db'.report_items = dbEnvMix.report_items) :=
  ⟨(wosa_c6_generate_report dbEnvMix 0 0 none).1.2 (Or.inl (by decide)),
   (wosa_c6_generate_report dbEnvMix 0 6 none).2 (Or.inl rfl)⟩

/-- Maximum of an integer list via `List.max?`: the returned element is a
member and an upper bound. -/
theorem int_max?_spec (l : List Int) (m : Int) (h : l.max? = some m) :
    m ∈ l ∧ ∀ x ∈ l, x ≤ m := by
  refine ⟨List.max?_mem (fun a b => max_choice a b) h, ?_⟩
  intro x hx
  exact (List.max?_le_iff (fun a b c => max_le_iff) h).1 le_rfl x hx

/-- C7: for each of the six known entity kinds, a requested id that is absent
from the entity's table is reported available as itself; a present one is
reported unavailable with the next id being the table's maximum id plus one;
an unknown entity kind is rejected with a ValidationError. -/
theorem wosa_c7_next_available_id (db : WosaDB) (entity : String) (requested_id : Int) :
    (((entity_map db).lookup entity = none)
        ↔ ¬ entity ∈ (["file", "application_component", "interface_type",
                        "interface", "topic", "report"] : List String))
  ∧ ((entity_map db).lookup entity = none →
      ∃ msg, get_next_available_id db entity requested_id
        = Except.error (WosaError.validationError msg))
  ∧ (∀ ids, (entity_map db).lookup entity = some ids →
      ((¬ requested_id ∈ ids) →
        get_next_available_id db entity requested_id
          = Except.ok { entity := entity, requested_id := requested_id
                        available_id := requested_id, is_available := true })
    ∧ ((requested_id ∈ ids) →
        ∃ m, m ∈ ids ∧ (∀ x ∈ ids, x ≤ m)
          ∧ get_next_available_id db entity requested_id
            = Except.ok { entity := entity, requested_id := requested_id
                          available_id := m + 1, is_available := false })) := by
  refine ⟨?_, ?_, ?_⟩
  · by_cases h1 : entity = "file"
    · subst h1; simp [entity_map, List.lookup]
    · by_cases h2 : entity = "application_component"
      · subst h2; simp [entity_map, List.lookup]
      · by_cases h3 : entity = "interface_type"
        · subst h3; simp [entity_map, List.lookup]
        · by_cases h4 : entity = "interface"
          · subst h4; simp [entity_map, List.lookup]
          · by_cases h5 : entity = "topic"
            · subst h5; simp [entity_map, List.lookup]
            · by_cases h6 : entity = "report"
              · subst h6; simp [entity_map, List.lookup]
              · have e1 := beq_eq_false_iff_ne.2 h1
                have e2 := beq_eq_false_iff_ne.2 h2
                have e3 := beq_eq_false_iff_ne.2 h3
                have e4 := beq_eq_false_iff_ne.2 h4
                have e5 := beq_eq_false_iff_ne.2 h5
                have e6 := beq_eq_false_iff_ne.2 h6
                simp [entity_map, List.lookup, e1, e2, e3, e4, e5, e6, h1, h2, h3, h4, h5, h6]
  · intro h
    exact ⟨"Unknown entity: " ++ entity, by simp [get_next_available_id, h]⟩
  · intro ids hids
    constructor
    · intro hnot
      simp [get_next_available_id, hids, hnot]
    · intro hmem
      have hc : ids.contains requested_id = true := by simpa using hmem
      cases hmax : ids.max? with
      | none =>
        rw [List.max?_eq_none_iff] at hmax
        subst hmax
        simp at hmem
      | some m =>
        obtain ⟨hmm, hub⟩ := int_max?_spec ids m hmax
        exact ⟨m, hmm, hub, by simp [get_next_available_id, hids, hmem, hmax]⟩

/-- Store holding two topics, with ids 1 and 2. -/
def dbTwoTopics : WosaDB :=
  { emptyDB with topics := [mkTopic 1 "alpha" none none, mkTopic 2 "beta" none none] }

/-- C7 witness: requesting the taken topic id 1 yields unavailable with next
id 3 = max(1, 2) + 1. -/
theorem wosa_c7_witness :
    get_next_available_id dbTwoTopics "topic" 1
      = Except.ok { entity := "topic", requested_id := 1
                    available_id := 3, is_available := false } := by
  obtain ⟨m, hm, hub, heq⟩ :=
    ((wosa_c7_next_available_id dbTwoTopics "topic" 1).2.2 [1, 2] (by decide)).2 (by decide)
  have h2 : (2 : Int) ≤ m := hub 2 (by decide)
  have hm' : m = 1 ∨ m = 2 := by simpa using hm
  rcases hm' with hm1 | hm2
  · rw [hm1] at h2; exact absurd h2 (by decide)
  · rw [hm2] at heq; exact heq

/-- Upload request whose decoded text contains a non-ASCII character. -/
def c8req : FileUploadRequest :=
  { filename := "Report.json", user_id := none, content_text := "café" }

/-- C8 counterexample: the claim says the persisted size is the UTF-8 byte
length of the decoded text, but `len` of a Python `str` counts code points:
for decoded text `café` the stored `file_size` is 4 while the byte length
is 5. -/
theorem wosa_c8_counterexample :
    (upload_file emptyDB "2024-01-01 00:00:00" c8req).toOption.map (fun p => p.2.file_size)
      = some 4
  ∧ c8req.content_text.utf8ByteSize = 5
  ∧ (4 : Int) ≠ (5 : Int) := by decide

/-- C8 (amended): a successful upload persists a file named
`lowercase(filename) + " " + timestamp` with status `pending` and size equal
to the number of Unicode code points of the decoded text (not its UTF-8 byte
length); a pre-existing file with the derived name causes a ConflictError. -/
theorem wosa_c8_upload_file (db : WosaDB) (timestamp : String)
    (request : FileUploadRequest) :
    ((db.files.any (fun f => f.name == strLower request.filename ++ " " ++ timestamp)) = false →
      ∃ db' f, upload_file db timestamp request = Except.ok (db', f)
        ∧ f.name = strLower request.filename ++ " " ++ timestamp
        ∧ f.status = "pending"
        ∧ f.file_size = Int.ofNat request.content_text.length
        ∧ db'.files = db.files ++ [f])
  ∧ ((db.files.any (fun f => f.name == strLower request.filename ++ " " ++ timestamp)) = true →
      ∃ msg, upload_file db timestamp request
        = Except.error (WosaError.conflictError msg)) := by
  constructor
  · intro h
    simp only [upload_file]
    rw [if_neg (by simp [h])]
    exact ⟨_, _, rfl, rfl, rfl, rfl, rfl⟩
  · intro h
    refine ⟨"File with name " ++ (strLower request.filename ++ " " ++ timestamp)
      ++ " already exists", ?_⟩
    simp only [upload_file]
    rw [if_pos h]

/-- C8 witness: uploading into the empty store succeeds with status
`pending`. -/
theorem wosa_c8_witness :
    (upload_file emptyDB "2024-01-01 00:00:00" c8req).toOption.map (fun p => p.2.status)
      = some "pending" := by
  obtain ⟨db', f, heq, hname, hstatus, hsize, hfiles⟩ :=
    (wosa_c8_upload_file emptyDB "2024-01-01 00:00:00" c8req).1 (by decide)
  rw [heq]
  simp [Except.toOption, hstatus]

/-- Stored topic whose last message is 45 days old relative to `now = 0`. -/
def topic45 : Topic := mkTopic 1 "alpha" none (some (0 - 45 * 86400))

/-- Store holding exactly the 45-day-old topic. -/
def db45 : WosaDB := { emptyDB with topics := [topic45] }

/-- C3 counterexample: a topic whose last message is 45 days old appears in
report type 3, but the claim also places it in report type 4, whereas the
type 4 filter `last_message_date < now - 60 days` rejects it (45 days ago is
newer than 60 days ago), so the type 4 result set is empty. -/
theorem wosa_c3_counterexample :
    topic45 ∈ db45.topics
  ∧ topic45.stats.last_message_date = some (0 - 45 * 86400)
  ∧ noMsgRow topic45 ∈ get_topics_30_days_no_message db45 0
  ∧ get_topics_60_days_no_message db45 0 = [] := by decide

/-- C3 (amended): a topic with `last_message_date = now - 45 days` appears in
the report type 3 results but in neither the type 4 nor the type 5 results;
a topic with a null `last_message_date` appears in all three.  (The
`huniq` hypothesis states that the topic's primary key is unique in the
table.) -/
theorem wosa_c3_no_message_reports (db : WosaDB) (now : Int) (t : Topic)
    (ht : t ∈ db.topics)
    (huniq : ∀ u ∈ db.topics, u.id = t.id → u = t) :
    (t.stats.last_message_date = some (now - 45 * 86400) →
        noMsgRow t ∈ get_topics_30_days_no_message db now
      ∧ (∀ r ∈ get_topics_60_days_no_message db now, r.topic_id ≠ t.id)
      ∧ (∀ r ∈ get_topics_90_days_no_message db now, r.topic_id ≠ t.id))
  ∧ (t.stats.last_message_date = none →
        noMsgRow t ∈ get_topics_30_days_no_message db now
      ∧ noMsgRow t ∈ get_topics_60_days_no_message db now
      ∧ noMsgRow t ∈ get_topics_90_days_no_message db now) := by
  constructor
  · intro hlmd
    refine ⟨?_, ?_, ?_⟩
    · refine List.mem_map.2 ⟨t, List.mem_filter.2 ⟨ht, ?_⟩, rfl⟩
      simp only [lastMessageOlder, hlmd, decide_eq_true_eq]
      omega
    · intro r hr hid
      rcases List.mem_map.1 hr with ⟨u, hu, hrow⟩
      rcases List.mem_filter.1 hu with ⟨humem, hpred⟩
      have huid : u.id = t.id := by
        have hx := congrArg (fun q => q.topic_id) hrow
        simpa [noMsgRow] using hx.trans hid
      have hut : u = t := huniq u humem huid
      rw [hut, hlmd] at hpred
      simp only [lastMessageOlder, decide_eq_true_eq] at hpred
      omega
    · intro r hr hid
      rcases List.mem_map.1 hr with ⟨u, hu, hrow⟩
      rcases List.mem_filter.1 hu with ⟨humem, hpred⟩
      have huid : u.id = t.id := by
        have hx := congrArg (fun q => q.topic_id) hrow
        simpa [noMsgRow] using hx.trans hid
      have hut : u = t := huniq u humem huid
      rw [hut, hlmd] at hpred
      simp only [lastMessageOlder, decide_eq_true_eq] at hpred
      omega
  · intro hlmd
    refine ⟨?_, ?_, ?_⟩ <;>
      exact List.mem_map.2 ⟨t, List.mem_filter.2 ⟨ht, by simp [lastMessageOlder, hlmd]⟩, rfl⟩

/-- C3 witness: the 45-day-old topic of a concrete store is in the type 3
result set. -/
theorem wosa_c3_witness :
    noMsgRow topic45 ∈ get_topics_30_days_no_message db45 0 :=
  ((wosa_c3_no_message_reports db45 0 topic45 (by decide) (by decide)).1 (by decide)).1

/-- Bookkeeping invariant of the `process_topics` loop, for an arbitrary
per-topic step: the processed count and warnings are untouched, the final
status is `completed`, and each input topic contributes exactly one unit to
created, updated, or errors. -/
theorem process_topics_go_spec
    (step : WosaDB → TopicData → Except String (WosaDB × StepOutcome)) :
    ∀ (tds : List TopicData) (db : WosaDB) (res : ProcessingResult),
      ((process_topics_go step db res tds).2.topics_processed = res.topics_processed)
    ∧ ((process_topics_go step db res tds).2.status = "completed")
    ∧ ((process_topics_go step db res tds).2.topics_created
        + (process_topics_go step db res tds).2.topics_updated
        + (process_topics_go step db res tds).2.errors.length
        = res.topics_created + res.topics_updated + res.errors.length + tds.length) := by
  intro tds
  induction tds with
  | nil => intro db res; simp [process_topics_go]
  | cons td rest ih =>
    intro db res
    cases hstep : step db td with
    | ok p =>
      rcases p with ⟨db', out⟩
      cases out with
      | createdTopic =>
        simp only [process_topics_go, hstep]
        obtain ⟨h1, h2, h3⟩ := ih db' { res with topics_created := res.topics_created + 1 }
        refine ⟨h1, h2, ?_⟩
        simp only [List.length_cons]
        simp only at h3
        omega
      | updatedTopic =>
        simp only [process_topics_go, hstep]
        obtain ⟨h1, h2, h3⟩ := ih db' { res with topics_updated := res.topics_updated + 1 }
        refine ⟨h1, h2, ?_⟩
        simp only [List.length_cons]
        simp only at h3
        omega
    | error e =>
      simp only [process_topics_go, hstep]
      obtain ⟨h1, h2, h3⟩ := ih db
        { res with errors := res.errors
            ++ ["Error processing topic " ++ td.name ++ ": " ++ e] }
      refine ⟨h1, h2, ?_⟩
      simp only [List.length_cons]
      simp only [List.length_append, List.length_cons, List.length_nil] at h3
      omega

/-- C10: for every per-topic step (in particular for any step that throws:
the loop catches each per-topic exception and records it as one `errors`
entry instead of propagating it) and for the actual `process_topics`, the
returned result satisfies
`topics_processed = topics_created + topics_updated + length errors` and has
status `completed`. -/
theorem wosa_c10_processing_result
    (step : WosaDB → TopicData → Except String (WosaDB × StepOutcome))
    (db : WosaDB) (now file_id : Int) (tds : List TopicData) :
    ((process_topics_with step db file_id tds).2.topics_processed
       = (process_topics_with step db file_id tds).2.topics_created
         + (process_topics_with step db file_id tds).2.topics_updated
         + (process_topics_with step db file_id tds).2.errors.length)
  ∧ (process_topics_with step db file_id tds).2.status = "completed"
  ∧ ((process_topics db now file_id tds).2.topics_processed
       = (process_topics db now file_id tds).2.topics_created
         + (process_topics db now file_id tds).2.topics_updated
         + (process_topics db now file_id tds).2.errors.length)
  ∧ (process_topics db now file_id tds).2.status = "completed" := by
  obtain ⟨g1, g2, g3⟩ := process_topics_go_spec step tds db (init_result file_id tds)
  obtain ⟨k1, k2, k3⟩ :=
    process_topics_go_spec (topic_step now file_id) tds db (init_result file_id tds)
  simp only [init_result, List.length_nil] at g1 g3 k1 k3
  refine ⟨?_, g2, ?_, k2⟩
  · simp only [process_topics_with, init_result]
    omega
  · simp only [process_topics, process_topics_with, init_result]
    omega
/-- Fresh topic record submitted against the empty store. -/
def tdGamma : TopicData :=
  { bridged_topic := none, consumers := [], missing_consumers := []
    missing_producers := [], name := "gamma", producers := []
    stats := statsDefault }
/-- Topic record matching the stored topic `alpha` field for field. -/
def tdAlpha : TopicData :=
  { bridged_topic := none, consumers := [], missing_consumers := []
    missing_producers := [], name := "alpha", producers := []
    stats := statsDefault }

/-- Stored topic named `alpha` with the same bridged topic and statistics as
`tdAlpha`. -/
def topicAlpha : Topic := mkTopic 1 "alpha" none none

/-- Store holding exactly the topic `alpha`. -/
def dbAlpha : WosaDB := { emptyDB with topics := [topicAlpha], next_topic_id := 2 }
/-- Run of the `process_topics` loop with the actual per-topic step: every
iteration raises, so nothing is created or updated, each record adds one
errors entry, and the store is left untouched. -/
theorem process_go_all_error (now file_id : Int) :
    ∀ (tds : List TopicData) (db : WosaDB) (res : ProcessingResult),
      ((process_topics_go (topic_step now file_id) db res tds).2.topics_created
          = res.topics_created)
    ∧ ((process_topics_go (topic_step now file_id) db res tds).2.topics_updated
          = res.topics_updated)
    ∧ ((process_topics_go (topic_step now file_id) db res tds).2.errors.length
          = res.errors.length + tds.length)
    ∧ ((process_topics_go (topic_step now file_id) db res tds).1 = db) := by
  intro tds
  induction tds with
  | nil =>
    intro db res
    exact ⟨rfl, rfl, by simp [process_topics_go], rfl⟩
  | cons td rest ih =>
    intro db res
    have hstep : topic_step now file_id db td = Except.error attributeErrorMsg := rfl
    simp only [process_topics_go, hstep]
    obtain ⟨h1, h2, h3, h4⟩ := ih db
      { res with errors := res.errors
          ++ ["Error processing topic " ++ td.name ++ ": " ++ attributeErrorMsg] }
    refine ⟨h1, h2, ?_, h4⟩
    rw [h3]
    simp only [List.length_append, List.length_cons, List.length_nil]
    omega

/-- C4: trace of the code at the failing input — one fresh-named record
against the empty store performs no create: the `AttributeError` at
`topic_data.object` sends the record to the errors list, so the claimed
`topics_created = N`, `errors = []` is false of the program (the spec and
the driver script `scripts/test_wosa_system.py` show the create path is the
intent). -/
theorem wosa_c4_code_trace :
    ((process_topics emptyDB 0 1 [tdGamma]).2.topics_created = 0)
  ∧ ((process_topics emptyDB 0 1 [tdGamma]).2.topics_updated = 0)
  ∧ ((process_topics emptyDB 0 1 [tdGamma]).2.errors
      = ["Error processing topic gamma: " ++ attributeErrorMsg])
  ∧ ((process_topics emptyDB 0 1 [tdGamma]).1 = emptyDB) := by decide

/-- Topic record named like the stored `alpha` but with a differing
statistics field. -/
def tdAlphaChanged : TopicData :=
  { tdAlpha with stats := { statsDefault with total_messages := 5 } }

/-- C1 counterexample: a stored topic named `alpha` and a re-submitted record
of the same name with a differing stat field — the claim requires
`topics_updated = N = 1`, but the program returns `topics_updated = 0`: the
record never reaches `_update_topic`, it raises `AttributeError` at
`topic_data.object` and lands in `errors`. -/
theorem wosa_c1_counterexample :
    topicAlpha ∈ dbAlpha.topics
  ∧ topicAlpha.name = tdAlphaChanged.name
  ∧ ¬ topicAlpha.stats = tdAlphaChanged.stats
  ∧ (process_topics dbAlpha 0 1 [tdAlphaChanged]).2.topics_updated = 0
  ∧ (0 : Nat) ≠ 1 := by decide

/-- C1 (amended): re-processing a document whose N topics all already exist
in the store returns `topics_created = 0`, `topics_updated = 0` and writes no
`TopicHistory` row — the same whether every submitted field equals the stored
values or some stat field differs, because each of the N records raises
`AttributeError` at `topic_data.object` and is recorded as one errors entry;
the store is left entirely unchanged. -/
theorem wosa_c1_reprocess_errors (db : WosaDB) (now file_id : Int)
    (tds : List TopicData) :
    ((process_topics db now file_id tds).2.topics_created = 0)
  ∧ ((process_topics db now file_id tds).2.topics_updated = 0)
  ∧ ((process_topics db now file_id tds).2.errors.length = tds.length)
  ∧ ((process_topics db now file_id tds).1.topic_history = db.topic_history) := by
  obtain ⟨h1, h2, h3, h4⟩ :=
    process_go_all_error now file_id tds db (init_result file_id tds)
  simp only [process_topics, process_topics_with, init_result,
    List.length_nil] at h1 h2 h3 h4 ⊢
  exact ⟨h1, h2, by omega, by rw [h4]⟩
